import Mathlib

/-!
Verification of the anonyChat room state synchronization engine.

This file is a shallow embedding of the engine implemented in
`src/hooks/useChatRoom.ts` (the current revision), together with the
degraded-mode transport adapter of `src/supabase.ts` (the mock client),
the earlier engine revision found in `src/unnamed/part_000`, and the
mention detection of the `MessageItem` component (`src/unnamed/part_005`).

Modelling conventions:
- TypeScript interfaces become Lean structures; optional fields become
  `Option` fields.
- `Date.now()` readings are passed in explicitly as a `Nat` argument
  (`now`); the ISO rendering of the clock is abstracted as `toString now`.
- Asynchronous transport calls are passed in as explicit results:
  a query is an `Except String (List row)` (error message or rows), an
  insert outcome is an `Option String` (`some e` = the insert failed
  with error `e`).
- `console.error` output is collected in a `logs : List String` field;
  the value a JS function returns to its caller is modelled explicitly
  (`returned : Option String`, always `none` because the hook's
  `sendMessage` swallows the insert error after logging it).
-/

/-- The closed reaction vocabulary from `src/types.ts`. -/
inductive ReactionType where
  | like
  | idea
  | question
  | confused
  deriving DecidableEq

/-- A raw `messages` row as delivered by the transport (shape of §6 of the
spec and of the `messages` table; optional columns are `Option`). -/
structure MessageRow where
  id : String
  text : String
  timestamp : String
  user_id : String
  room_id : String
  is_host : Option Bool := none
  host_name : Option String := none
  mentions : Option (List String) := none
  deriving DecidableEq

/-- The engine-side `Message` record of `src/types.ts`, including the
derived `isSender` flag and the extra `userId` property that the hydration
mapping and the degraded-mode send path attach at runtime. -/
structure Message where
  id : String
  text : String
  timestamp : String
  user_id : String
  isSender : Bool
  room_id : String
  is_host : Option Bool := none
  host_name : Option String := none
  mentions : Option (List String) := none
  userId : Option String := none
  deriving DecidableEq

/-- A `reactions` row (`src/types.ts`). -/
structure Reaction where
  id : String
  type : ReactionType
  timestamp : String
  room_id : String
  deriving DecidableEq

/-- A raw `message_reactions` row; `type` may be absent (earlier schema). -/
structure MessageReactionRow where
  id : String
  message_id : String
  user_id : String
  room_id : String
  timestamp : String
  type : Option ReactionType := none
  deriving DecidableEq

/-- The engine-side `MessageReaction` record, with `type` always present. -/
structure MessageReaction where
  id : String
  message_id : String
  user_id : String
  room_id : String
  timestamp : String
  type : ReactionType
  deriving DecidableEq

/-- The three per-room collections owned by `useChatRoom`
(`useState` cells `messages`, `reactions`, `messageReactions`). -/
structure EngineState where
  messages : List Message
  reactions : List Reaction
  messageReactions : List MessageReaction
  deriving DecidableEq

/-- The `useState` initial value: all three collections empty. -/
def initialState : EngineState :=
  { messages := [], reactions := [], messageReactions := [] }

/-- Hydration mapping for `messages` rows
(`src/hooks/useChatRoom.ts` lines 45-50): spread the row, derive
`isSender`, copy `user_id` into `userId`, default `mentions` to `[]`. -/
def hydrateMessage (uid : String) (m : MessageRow) : Message :=
  { id := m.id, text := m.text, timestamp := m.timestamp,
    user_id := m.user_id, room_id := m.room_id,
    is_host := m.is_host, host_name := m.host_name,
    isSender := m.user_id == uid,
    userId := some m.user_id,
    mentions := some (m.mentions.getD []) }

/-- Hydration mapping for `message_reactions` rows
(`src/hooks/useChatRoom.ts` lines 74-77): `type: r.type || 'like'`. -/
def hydrateMessageReaction (r : MessageReactionRow) : MessageReaction :=
  { id := r.id, message_id := r.message_id, user_id := r.user_id,
    room_id := r.room_id, timestamp := r.timestamp,
    type := r.type.getD ReactionType.like }

/-- Feed mapping for `messages` payloads
(`src/hooks/useChatRoom.ts` line 95): spread `payload.new` and derive
`isSender`; unlike hydration, no `userId` copy and no `mentions` default. -/
def feedMessage (uid : String) (row : MessageRow) : Message :=
  { id := row.id, text := row.text, timestamp := row.timestamp,
    user_id := row.user_id, room_id := row.room_id,
    is_host := row.is_host, host_name := row.host_name,
    mentions := row.mentions,
    isSender := row.user_id == uid }

/-- Feed mapping for `message_reactions` payloads
(`src/hooks/useChatRoom.ts` line 148): `type: payload.new.type || 'like'`. -/
def feedMessageReaction (r : MessageReactionRow) : MessageReaction :=
  { id := r.id, message_id := r.message_id, user_id := r.user_id,
    room_id := r.room_id, timestamp := r.timestamp,
    type := r.type.getD ReactionType.like }

/-- The merge step of the messages feed callback
(`src/hooks/useChatRoom.ts` lines 96-101): discard if an entry with the
same `id` exists, otherwise append. -/
def mergeMessage (prev : List Message) (m : Message) : List Message :=
  if prev.any (fun x => x.id == m.id) then prev else prev ++ [m]

/-- The merge step of the reactions feed callback (lines 121-127). -/
def mergeReaction (prev : List Reaction) (r : Reaction) : List Reaction :=
  if prev.any (fun x => x.id == r.id) then prev else prev ++ [r]

/-- The merge step of the message-reactions feed callback (lines 147-153). -/
def mergeMessageReaction (prev : List MessageReaction) (r : MessageReaction) :
    List MessageReaction :=
  if prev.any (fun x => x.id == r.id) then prev else prev ++ [r]

/-- Bridge between the `Array.some` / `List.any` guard used by the three
merge callbacks and the propositional statement "the collection contains
an entry with this id". -/
theorem any_id_eq_true_iff {α : Type} (getId : α → String) (prev : List α)
    (i : String) :
    prev.any (fun x => getId x == i) = true ↔ ∃ x ∈ prev, getId x = i := by
  simp [List.any_eq_true]

/-- C1: the merge step applied to an incoming row (as used by all three
feed callbacks, on the same dedup-by-id pattern) leaves the collection
unchanged when an entry with the incoming id already exists, and otherwise
appends the row at the end, with no re-sorting of existing entries. -/
theorem merge_dedup_spec (ms : List Message) (m : Message)
    (rs : List Reaction) (r : Reaction)
    (qs : List MessageReaction) (q : MessageReaction) :
    ((∃ x ∈ ms, x.id = m.id) → mergeMessage ms m = ms) ∧
    ((¬ ∃ x ∈ ms, x.id = m.id) → mergeMessage ms m = ms ++ [m]) ∧
    ((∃ x ∈ rs, x.id = r.id) → mergeReaction rs r = rs) ∧
    ((¬ ∃ x ∈ rs, x.id = r.id) → mergeReaction rs r = rs ++ [r]) ∧
    ((∃ x ∈ qs, x.id = q.id) → mergeMessageReaction qs q = qs) ∧
    ((¬ ∃ x ∈ qs, x.id = q.id) → mergeMessageReaction qs q = qs ++ [q]) := by
  refine ⟨fun h => ?_, fun h => ?_, fun h => ?_, fun h => ?_, fun h => ?_,
    fun h => ?_⟩
  · rw [mergeMessage, if_pos ((any_id_eq_true_iff Message.id ms m.id).mpr h)]
  · rw [mergeMessage,
      if_neg (fun hc => h ((any_id_eq_true_iff Message.id ms m.id).mp hc))]
  · rw [mergeReaction, if_pos ((any_id_eq_true_iff Reaction.id rs r.id).mpr h)]
  · rw [mergeReaction,
      if_neg (fun hc => h ((any_id_eq_true_iff Reaction.id rs r.id).mp hc))]
  · rw [mergeMessageReaction,
      if_pos ((any_id_eq_true_iff MessageReaction.id qs q.id).mpr h)]
  · rw [mergeMessageReaction,
      if_neg (fun hc => h ((any_id_eq_true_iff MessageReaction.id qs q.id).mp hc))]

/-- A concrete message used in witnesses. -/
def msgA : Message :=
  { id := "m1", text := "first", timestamp := "t1", user_id := "u1",
    isSender := false, room_id := "roomA" }

/-- A second concrete message with a distinct id. -/
def msgB : Message :=
  { id := "m2", text := "second", timestamp := "t2", user_id := "u2",
    isSender := false, room_id := "roomA" }

/-- A concrete room reaction used in witnesses. -/
def reacA : Reaction :=
  { id := "r1", type := ReactionType.like, timestamp := "t1",
    room_id := "roomA" }

/-- A concrete message reaction used in witnesses. -/
def mreacA : MessageReaction :=
  { id := "q1", message_id := "m1", user_id := "u1", room_id := "roomA",
    timestamp := "t1", type := ReactionType.idea }

/-- Witness for C1: the merge step at concrete inputs — a duplicate id is
a no-op, a fresh id is appended for each of the three collections. -/
theorem merge_dedup_spec_witness :
    mergeMessage [msgA] msgA = [msgA] ∧
    mergeMessage [msgA] msgB = [msgA, msgB] ∧
    mergeReaction [] reacA = [reacA] ∧
    mergeMessageReaction [] mreacA = [mreacA] := by
  have h1 := merge_dedup_spec [msgA] msgA [] reacA [] mreacA
  have h2 := merge_dedup_spec [msgA] msgB [] reacA [] mreacA
  exact ⟨h1.1 ⟨msgA, by simp, rfl⟩, h2.2.1 (by decide),
    h1.2.2.2.1 (by simp), h1.2.2.2.2.2 (by simp)⟩

/-- `fetchInitialData` (`src/hooks/useChatRoom.ts` lines 35-79): the three
per-table queries are handled independently; a failing query is logged and
leaves its collection as it was (initially empty), a successful one
replaces the collection with the mapped rows (guarded by `isMounted`).
The three query results are passed in explicitly. -/
def fetchInitialData (mounted : Bool) (uid : String) (st : EngineState)
    (mq : Except String (List MessageRow))
    (rq : Except String (List Reaction))
    (mrq : Except String (List MessageReactionRow)) :
    EngineState × List String :=
  let ms :=
    match mq with
    | Except.error e => (st.messages, ["Error fetching messages: " ++ e])
    | Except.ok rows =>
      (if mounted then rows.map (hydrateMessage uid) else st.messages, [])
  let rs :=
    match rq with
    | Except.error e => (st.reactions, ["Error fetching reactions: " ++ e])
    | Except.ok rows => (if mounted then rows else st.reactions, [])
  let qs :=
    match mrq with
    | Except.error e =>
      (st.messageReactions, ["Error fetching message reactions: " ++ e])
    | Except.ok rows =>
      (if mounted then rows.map hydrateMessageReaction else st.messageReactions,
        [])
  ({ messages := ms.1, reactions := rs.1, messageReactions := qs.1 },
    ms.2 ++ rs.2 ++ qs.2)

/-- What one run of the hydration effect produces: the resulting state, the
`console.error` log, the tables queried, and the channels on which
`.subscribe()` was called. -/
structure HydrationResult where
  state : EngineState
  logs : List String
  queriesIssued : List String
  channelsOpened : List String
  deriving DecidableEq

/-- The hydration effect of the current engine
(`src/hooks/useChatRoom.ts` lines 32-159): it calls `fetchInitialData`
unconditionally (three queries, one per table) and then creates and
subscribes the three channels unconditionally — there is no degraded-mode
branch in this revision. -/
def hydrationEffect (mounted : Bool) (uid roomId : String) (st : EngineState)
    (mq : Except String (List MessageRow))
    (rq : Except String (List Reaction))
    (mrq : Except String (List MessageReactionRow)) : HydrationResult :=
  let r := fetchInitialData mounted uid st mq rq mrq
  { state := r.1, logs := r.2,
    queriesIssued := ["messages", "reactions", "message_reactions"],
    channelsOpened := ["messages-" ++ roomId, "reactions-" ++ roomId,
      "message-reactions-" ++ roomId] }

/-- The in-memory store behind the mock client of `src/supabase.ts`
(degraded-mode adapter), one table per collection. -/
structure MockStore where
  messages : List MessageRow
  reactions : List Reaction
  message_reactions : List MessageReactionRow
  deriving DecidableEq

/-- A runtime value flowing through a mock query chain
(`src/supabase.ts` lines 39-84): either the builder object that `from`
returns (carrying the filter list and the ordering registered so far), or
the bare result promise that the mock's async `select` returns. Only the
builder has `select`/`eq`/`order` methods; calling one of them on the
result promise is a JS `TypeError`. -/
inductive MockChainValue (α : Type) where
  | builder (filters : List (String × String)) (ordering : Option (String × Bool))
  | selectResult (rows : List α)
  deriving DecidableEq

/-- Dynamic field access `row[field]` for a mock `messages` row, for the
string-valued columns; the hook's chains only ever reference `room_id`
(filter) and `timestamp` (ordering). -/
def messageRowField (row : MessageRow) (field : String) : Option String :=
  if field == "room_id" then some row.room_id
  else if field == "timestamp" then some row.timestamp
  else if field == "id" then some row.id
  else if field == "text" then some row.text
  else if field == "user_id" then some row.user_id
  else none

/-- Dynamic field access for a mock `reactions` row. -/
def reactionField (row : Reaction) (field : String) : Option String :=
  if field == "room_id" then some row.room_id
  else if field == "timestamp" then some row.timestamp
  else if field == "id" then some row.id
  else none

/-- Dynamic field access for a mock `message_reactions` row. -/
def messageReactionRowField (row : MessageReactionRow) (field : String) :
    Option String :=
  if field == "room_id" then some row.room_id
  else if field == "timestamp" then some row.timestamp
  else if field == "id" then some row.id
  else if field == "message_id" then some row.message_id
  else if field == "user_id" then some row.user_id
  else none

/-- The body of the mock client's `select` (`src/supabase.ts` lines 45-58):
copy the table, apply the registered equality filters, then sort by the
ordering field if one was registered (the comparator is modelled as a
stable sort on the field's value; every row of the three tables carries
the `timestamp` field the hook orders by, so the `getD` default is
unreachable there). -/
def mockSelectRows {α : Type} (getF : α → String → Option String)
    (tableRows : List α) (filters : List (String × String))
    (ordering : Option (String × Bool)) : List α :=
  let data := filters.foldl
    (fun rows fv => rows.filter (fun row => getF row fv.1 == some fv.2))
    tableRows
  match ordering with
  | none => data
  | some fa =>
    if fa.2 then
      data.insertionSort (fun a b => (getF a fa.1).getD "" ≤ (getF b fa.1).getD "")
    else
      data.insertionSort (fun a b => (getF b fa.1).getD "" ≤ (getF a fa.1).getD "")

/-- Calling `.select()` on a mock chain value: on the builder it runs the
query against the table and yields the result promise; on anything else
the method does not exist. -/
def callSelect {α : Type} (getF : α → String → Option String)
    (tableRows : List α) :
    MockChainValue α → Except String (MockChainValue α)
  | MockChainValue.builder filters ordering =>
    Except.ok (MockChainValue.selectResult
      (mockSelectRows getF tableRows filters ordering))
  | MockChainValue.selectResult _ =>
    Except.error "TypeError: select is not a function"

/-- Calling `.eq(field, value)` on a mock chain value: on the builder it
registers the filter and returns the builder; on the bare result promise
that `select` returned there is no such method — a `TypeError`. -/
def callEq {α : Type} (field value : String) :
    MockChainValue α → Except String (MockChainValue α)
  | MockChainValue.builder filters ordering =>
    Except.ok (MockChainValue.builder (filters ++ [(field, value)]) ordering)
  | MockChainValue.selectResult _ =>
    Except.error "TypeError: eq is not a function"

/-- Calling `.order(field, { ascending })` on a mock chain value. -/
def callOrder {α : Type} (field : String) (ascending : Bool) :
    MockChainValue α → Except String (MockChainValue α)
  | MockChainValue.builder filters _ =>
    Except.ok (MockChainValue.builder filters (some (field, ascending)))
  | MockChainValue.selectResult _ =>
    Except.error "TypeError: order is not a function"

/-- The hook's per-table query chain as written in `fetchInitialData`
(`src/hooks/useChatRoom.ts` lines 36-40 and likewise for the other two
tables), evaluated against the mock client:
`from(table).select().eq(room_id, roomId).order(timestamp, ascending)`.
`from` yields the fresh builder; the methods are applied in exactly this
order, each to the previous call's value, and the chain aborts at the
first thrown `TypeError`. -/
def hookQueryChain {α : Type} (getF : α → String → Option String)
    (tableRows : List α) (roomId : String) : Except String (List α) := do
  let v0 : MockChainValue α := MockChainValue.builder [] none
  let v1 ← callSelect getF tableRows v0
  let v2 ← callEq "room_id" roomId v1
  let v3 ← callOrder "timestamp" true v2
  match v3 with
  | MockChainValue.selectResult rows => Except.ok rows
  | MockChainValue.builder _ _ =>
    Except.error "TypeError: awaited value is not the select result"

/-- Against the mock client the hook's query chain always throws: the
chain invokes `select` first — before any `.eq`/`.order` — so `select`
returns the bare result promise and the subsequent `.eq` call on that
promise is a `TypeError`, whatever the table rows are. -/
theorem hookQueryChain_throws {α : Type} (getF : α → String → Option String)
    (tableRows : List α) (roomId : String) :
    hookQueryChain getF tableRows roomId
      = Except.error "TypeError: eq is not a function" := rfl

/-- What one degraded-mode run of the hydration effect produces: the
resulting state, the unhandled rejection of `fetchInitialData` (if its
body threw), the tables whose query chain was started, the
`console.error` output, and the channels subscribed. -/
structure DegradedHydrationResult where
  state : EngineState
  thrownError : Option String
  queryChainsAttempted : List String
  logs : List String
  channelsOpened : List String
  deriving DecidableEq

/-- The degraded-mode run of the current engine's hydration effect
(`src/hooks/useChatRoom.ts` lines 32-159 with `supabase` the mock client
of `src/supabase.ts`): `fetchInitialData` evaluates the `messages` query
chain first; a thrown `TypeError` rejects the whole async function (there
is no catch anywhere), so no collection is set, nothing is logged through
`console.error`, and the later chains are never started; the effect body
continues regardless and subscribes the three mock channels (which are
inert — their `on` registers nothing). The success continuation is kept
faithful to the code even though, against the mock builder, the first
chain always throws. -/
def degradedHydrationRun (uid roomId : String) (st : EngineState)
    (store : MockStore) : DegradedHydrationResult :=
  let channels := ["messages-" ++ roomId, "reactions-" ++ roomId,
    "message-reactions-" ++ roomId]
  match hookQueryChain messageRowField store.messages roomId with
  | Except.error e =>
    { state := st, thrownError := some e,
      queryChainsAttempted := ["messages"], logs := [],
      channelsOpened := channels }
  | Except.ok mrows =>
    let st1 := { st with messages := mrows.map (hydrateMessage uid) }
    match hookQueryChain reactionField store.reactions roomId with
    | Except.error e =>
      { state := st1, thrownError := some e,
        queryChainsAttempted := ["messages", "reactions"], logs := [],
        channelsOpened := channels }
    | Except.ok rrows =>
      let st2 := { st1 with reactions := rrows }
      match hookQueryChain messageReactionRowField store.message_reactions
          roomId with
      | Except.error e =>
        { state := st2, thrownError := some e,
          queryChainsAttempted := ["messages", "reactions", "message_reactions"],
          logs := [], channelsOpened := channels }
      | Except.ok qrows =>
        { state :=
            { st2 with messageReactions := qrows.map hydrateMessageReaction },
          thrownError := none,
          queryChainsAttempted := ["messages", "reactions", "message_reactions"],
          logs := [], channelsOpened := channels }

/-- The demo notice text seeded by the earlier engine revision
(`src/unnamed/part_000` lines 29-31). -/
def demoNotice : String :=
  "接続設定がまだ行われていないためデモ表示中です。Supabase を設定するとリアルタイム同期が有効になります。"

/-- The synthetic system message the earlier revision seeds in demo mode
(`src/unnamed/part_000` lines 27-36). -/
def demoSystemMessage (roomId now : String) : Message :=
  { id := "system-info", text := demoNotice, timestamp := now,
    user_id := "システムメッセージ", isSender := false, room_id := roomId }

/-- The hydration effect of the earlier engine revision
(`src/unnamed/part_000` lines 22-165): in demo mode `fetchInitialData`
seeds the messages collection with the single synthetic system message and
returns before issuing any query, and the three channel subscriptions are
guarded by `!isDemoMode`; otherwise it behaves like the current revision
(that revision has no `isMounted` guard, which coincides with
`mounted := true`). -/
def hydrationEffect000 (isDemoMode : Bool) (uid roomId now : String)
    (st : EngineState)
    (mq : Except String (List MessageRow))
    (rq : Except String (List Reaction))
    (mrq : Except String (List MessageReactionRow)) : HydrationResult :=
  if isDemoMode then
    { state := { st with messages := [demoSystemMessage roomId now] },
      logs := [], queriesIssued := [], channelsOpened := [] }
  else
    hydrationEffect true uid roomId st mq rq mrq

/-- What one `sendMessage` call produces: the messages collection after the
call, the `console.error` output, whether a transport insert was attempted,
and the value surfaced to the caller (the promise resolution value). -/
structure SendResult where
  messages : List Message
  logs : List String
  insertAttempted : Bool
  returned : Option String
  deriving DecidableEq

/-- The optimistic local message built by the degraded-mode branch of
`sendMessage` (`src/hooks/useChatRoom.ts` lines 174-193): the base message
plus `id = local-${Date.now()}`, a local timestamp, `isSender: true` and
`userId`. -/
def localMessage (uid roomId text : String) (mentions : List String)
    (isHost : Bool) (hostName : Option String) (now : Nat) : Message :=
  { text := text, room_id := roomId, user_id := uid,
    mentions := some mentions, is_host := some isHost,
    host_name := if isHost then hostName else none,
    id := "local-" ++ toString now,
    timestamp := toString now,
    isSender := true,
    userId := some uid }

/-- `sendMessage` (`src/hooks/useChatRoom.ts` lines 169-201). With the
transport not configured it appends the optimistic local message and
returns; otherwise it leaves the collection untouched and submits the
insert, logging a failure (`insertOutcome = some e`) and resolving with no
value either way (the JS function never returns or rethrows the error). -/
def sendMessage (configured : Bool) (uid roomId : String)
    (prev : List Message) (text : String) (mentions : List String)
    (isHost : Bool) (hostName : Option String) (now : Nat)
    (insertOutcome : Option String) : SendResult :=
  if !configured then
    { messages := prev ++ [localMessage uid roomId text mentions isHost hostName now],
      logs := [], insertAttempted := false, returned := none }
  else
    { messages := prev,
      logs :=
        match insertOutcome with
        | some e => ["Error sending message: " ++ e]
        | none => [],
      insertAttempted := true,
      returned := none }

/-- The local room reaction appended by the degraded-mode branch of
`addReaction` (`src/hooks/useChatRoom.ts` lines 204-214). -/
def localReaction (roomId : String) (t : ReactionType) (now : Nat) :
    Reaction :=
  { id := "local-" ++ toString now, type := t, room_id := roomId,
    timestamp := toString now }

/-- The local message reaction appended by the degraded-mode branch of
`addMessageReaction` (`src/hooks/useChatRoom.ts` lines 228-240). -/
def localMessageReaction (uid roomId messageId : String) (t : ReactionType)
    (now : Nat) : MessageReaction :=
  { id := "local-" ++ toString now, message_id := messageId, user_id := uid,
    room_id := roomId, type := t, timestamp := toString now }

/-- The external events the engine reacts to: a hydration response, one
insert event on each of the three feeds, and the three local mutation
calls (each carrying its `Date.now()` reading and, for connected mode, the
outcome of the transport insert). -/
inductive Event where
  | hydrate (mounted : Bool) (mq : Except String (List MessageRow))
      (rq : Except String (List Reaction))
      (mrq : Except String (List MessageReactionRow))
  | feedMessageInsert (row : MessageRow)
  | feedReactionInsert (row : Reaction)
  | feedMessageReactionInsert (row : MessageReactionRow)
  | send (text : String) (mentions : List String) (isHost : Bool)
      (hostName : Option String) (now : Nat) (insertOutcome : Option String)
  | react (t : ReactionType) (now : Nat) (insertOutcome : Option String)
  | reactToMessage (messageId : String) (t : ReactionType) (now : Nat)
      (insertOutcome : Option String)

/-- One engine transition per external event, combining the state updates
of the hydration effect, the three feed callbacks and the three mutation
entry points of `src/hooks/useChatRoom.ts`. -/
def step (configured : Bool) (uid roomId : String) (st : EngineState)
    (e : Event) : EngineState :=
  match e with
  | Event.hydrate mounted mq rq mrq =>
    (fetchInitialData mounted uid st mq rq mrq).1
  | Event.feedMessageInsert row =>
    { st with messages := mergeMessage st.messages (feedMessage uid row) }
  | Event.feedReactionInsert row =>
    { st with reactions := mergeReaction st.reactions row }
  | Event.feedMessageReactionInsert row =>
    { st with messageReactions :=
        mergeMessageReaction st.messageReactions (feedMessageReaction row) }
  | Event.send text mentions isHost hostName now insertOutcome =>
    { st with messages :=
        (sendMessage configured uid roomId st.messages text mentions isHost
          hostName now insertOutcome).messages }
  | Event.react t now _ =>
    if !configured then
      { st with reactions := st.reactions ++ [localReaction roomId t now] }
    else st
  | Event.reactToMessage mid t now _ =>
    if !configured then
      { st with messageReactions :=
          st.messageReactions ++ [localMessageReaction uid roomId mid t now] }
    else st

/-- Run the engine over a sequence of external events. -/
def run (configured : Bool) (uid roomId : String) (st : EngineState)
    (events : List Event) : EngineState :=
  events.foldl (step configured uid roomId) st

/-- C2 (failing run): in degraded mode, two `sendMessage` calls whose
`Date.now()` readings fall in the same millisecond both synthesize the id
`local-0`, so the messages collection ends up holding two entries that
share one id — the per-room id-uniqueness invariant fails, while every
feed path carefully dedups by id. -/
theorem degraded_send_duplicate_ids :
    ((run false "u1" "roomA" initialState
        [Event.send "first" [] false none 0 none,
          Event.send "second" [] false none 0 none]).messages.map Message.id)
      = ["local-0", "local-0"] ∧
    ¬ ((run false "u1" "roomA" initialState
        [Event.send "first" [] false none 0 none,
          Event.send "second" [] false none 0 none]).messages.map
        Message.id).Nodup := by
  constructor
  · decide
  · decide

/-- A mock store whose `messages` table holds one row for room `roomA`. -/
def storeWithRow : MockStore :=
  { messages :=
      [{ id := "s1", text := "stored", timestamp := "t0", user_id := "u1",
          room_id := "roomA" }],
    reactions := [], message_reactions := [] }

/-- C3 counterexample: in the current engine, degraded-mode hydration does
not seed any synthetic system message — even with a matching row in the
mock store, the messages collection stays empty, because the `messages`
query chain is started (so a transport query is issued) and throws a
`TypeError` against the mock builder, and three channel subscribe calls
are still made. -/
theorem degraded_hydration_not_seeded :
    (degradedHydrationRun "u1" "roomA" initialState storeWithRow).state.messages
      = [] ∧
    (degradedHydrationRun "u1" "roomA" initialState storeWithRow).state.messages.length
      ≠ 1 ∧
    (degradedHydrationRun "u1" "roomA" initialState storeWithRow).queryChainsAttempted
      = ["messages"] ∧
    (degradedHydrationRun "u1" "roomA" initialState storeWithRow).thrownError
      = some "TypeError: eq is not a function" ∧
    (degradedHydrationRun "u1" "roomA" initialState storeWithRow).channelsOpened
      = ["messages-roomA", "reactions-roomA", "message-reactions-roomA"] := by
  refine ⟨rfl, by decide, rfl, rfl, ?_⟩
  decide

/-- C3 (amended): in the current engine, degraded-mode hydration seeds
nothing and populates nothing — the `messages` query chain is attempted
against the mock client and throws a `TypeError` (the mock's `select` is
invoked first in the chain and returns a bare result promise, on which
`.eq` is not a function), so `fetchInitialData` rejects with all three
collections exactly as they were, the other two chains are never started
and nothing is logged via `console.error`, while the three channel
subscribe calls are still made on the mock client's inert channels; the
seeding behavior the claim describes belongs to the earlier engine
revision, whose demo-mode hydration seeds exactly the single synthetic
system message, issues no query and opens no channel. -/
theorem degraded_mode_hydration_behavior (uid roomId now : String)
    (st : EngineState) (store : MockStore)
    (mq : Except String (List MessageRow))
    (rq : Except String (List Reaction))
    (mrq : Except String (List MessageReactionRow)) :
    (degradedHydrationRun uid roomId st store).state = st ∧
    (degradedHydrationRun uid roomId st store).thrownError
      = some "TypeError: eq is not a function" ∧
    (degradedHydrationRun uid roomId st store).queryChainsAttempted
      = ["messages"] ∧
    (degradedHydrationRun uid roomId st store).logs = [] ∧
    (degradedHydrationRun uid roomId st store).channelsOpened
      = ["messages-" ++ roomId, "reactions-" ++ roomId,
          "message-reactions-" ++ roomId] ∧
    (hydrationEffect000 true uid roomId now st mq rq mrq).state
      = { st with messages := [demoSystemMessage roomId now] } ∧
    (hydrationEffect000 true uid roomId now st mq rq mrq).state.messages.length
      = 1 ∧
    (hydrationEffect000 true uid roomId now st mq rq mrq).queriesIssued = [] ∧
    (hydrationEffect000 true uid roomId now st mq rq mrq).channelsOpened
      = [] := by
  have h := hookQueryChain_throws messageRowField store.messages roomId
  refine ⟨?_, ?_, ?_, ?_, ?_, rfl, rfl, rfl, rfl⟩ <;>
    simp [degradedHydrationRun, h]

/-- C4 counterexample: a failed connected-mode insert is only logged — the
call resolves with no value (the error is not surfaced to the caller), and
the messages collection is left unchanged (no optimistic copy exists in
connected mode). -/
theorem send_failure_error_swallowed :
    (sendMessage true "u1" "roomA" [] "hello" [] false none 0
        (some "insert failed")).returned = none ∧
    (sendMessage true "u1" "roomA" [] "hello" [] false none 0
        (some "insert failed")).logs
      = ["Error sending message: insert failed"] ∧
    (sendMessage true "u1" "roomA" [] "hello" [] false none 0
        (some "insert failed")).messages = [] := by
  exact ⟨rfl, rfl, rfl⟩

/-- C4 (amended): when a connected-mode insert fails, the error is logged
but not surfaced to the caller (the call always resolves with no value);
the connected branch never appends an optimistic local copy, so the
collection is exactly what it was before the call; the failure is
non-fatal (the call still returns normally, having attempted the
insert). -/
theorem send_failure_behavior (uid roomId text e : String)
    (prev : List Message) (mentions : List String) (isHost : Bool)
    (hostName : Option String) (now : Nat) :
    (sendMessage true uid roomId prev text mentions isHost hostName now
        (some e)).messages = prev ∧
    (sendMessage true uid roomId prev text mentions isHost hostName now
        (some e)).logs = ["Error sending message: " ++ e] ∧
    (sendMessage true uid roomId prev text mentions isHost hostName now
        (some e)).returned = none ∧
    (sendMessage true uid roomId prev text mentions isHost hostName now
        (some e)).insertAttempted = true := by
  exact ⟨rfl, rfl, rfl, rfl⟩

/-- C5: in degraded mode, `sendMessage "hello"` synchronously leaves the
messages collection with a last element whose text is `"hello"` and whose
own-message flag is true, and no transport insert is attempted. -/
theorem degraded_send_optimistic_visibility (uid roomId : String)
    (prev : List Message) (mentions : List String) (isHost : Bool)
    (hostName : Option String) (now : Nat) (insertOutcome : Option String) :
    ((sendMessage false uid roomId prev "hello" mentions isHost hostName now
        insertOutcome).messages.getLast?.map Message.text) = some "hello" ∧
    ((sendMessage false uid roomId prev "hello" mentions isHost hostName now
        insertOutcome).messages.getLast?.map Message.isSender) = some true ∧
    (sendMessage false uid roomId prev "hello" mentions isHost hostName now
        insertOutcome).insertAttempted = false := by
  refine ⟨?_, ?_, rfl⟩ <;>
    simp [sendMessage, localMessage, List.getLast?_concat]

/-- C6: hydration is partial-failure tolerant — whichever single query
fails, its collection is left empty while the other two are populated from
their rows, the failure is logged, and the three channel subscriptions are
still opened. -/
theorem hydration_partial_failure_tolerant (uid roomId e : String)
    (mrows : List MessageRow) (rrows : List Reaction)
    (qrows : List MessageReactionRow) :
    ((hydrationEffect true uid roomId initialState (Except.ok mrows)
        (Except.error e) (Except.ok qrows)).state.reactions = [] ∧
      (hydrationEffect true uid roomId initialState (Except.ok mrows)
        (Except.error e) (Except.ok qrows)).state.messages
        = mrows.map (hydrateMessage uid) ∧
      (mrows ≠ [] →
        (hydrationEffect true uid roomId initialState (Except.ok mrows)
          (Except.error e) (Except.ok qrows)).state.messages ≠ []) ∧
      (hydrationEffect true uid roomId initialState (Except.ok mrows)
        (Except.error e) (Except.ok qrows)).state.messageReactions
        = qrows.map hydrateMessageReaction ∧
      (hydrationEffect true uid roomId initialState (Except.ok mrows)
        (Except.error e) (Except.ok qrows)).logs
        = ["Error fetching reactions: " ++ e] ∧
      (hydrationEffect true uid roomId initialState (Except.ok mrows)
        (Except.error e) (Except.ok qrows)).channelsOpened
        = ["messages-" ++ roomId, "reactions-" ++ roomId,
            "message-reactions-" ++ roomId]) ∧
    ((hydrationEffect true uid roomId initialState (Except.error e)
        (Except.ok rrows) (Except.ok qrows)).state.messages = [] ∧
      (hydrationEffect true uid roomId initialState (Except.error e)
        (Except.ok rrows) (Except.ok qrows)).state.reactions = rrows ∧
      (hydrationEffect true uid roomId initialState (Except.error e)
        (Except.ok rrows) (Except.ok qrows)).state.messageReactions
        = qrows.map hydrateMessageReaction ∧
      (hydrationEffect true uid roomId initialState (Except.error e)
        (Except.ok rrows) (Except.ok qrows)).channelsOpened
        = ["messages-" ++ roomId, "reactions-" ++ roomId,
            "message-reactions-" ++ roomId]) ∧
    ((hydrationEffect true uid roomId initialState (Except.ok mrows)
        (Except.ok rrows) (Except.error e)).state.messageReactions = [] ∧
      (hydrationEffect true uid roomId initialState (Except.ok mrows)
        (Except.ok rrows) (Except.error e)).state.messages
        = mrows.map (hydrateMessage uid) ∧
      (hydrationEffect true uid roomId initialState (Except.ok mrows)
        (Except.ok rrows) (Except.error e)).state.reactions = rrows ∧
      (hydrationEffect true uid roomId initialState (Except.ok mrows)
        (Except.ok rrows) (Except.error e)).channelsOpened
        = ["messages-" ++ roomId, "reactions-" ++ roomId,
            "message-reactions-" ++ roomId]) := by
  refine ⟨⟨rfl, rfl, fun h => ?_, rfl, rfl, rfl⟩, ⟨rfl, rfl, rfl, rfl⟩,
    ⟨rfl, rfl, rfl, rfl⟩⟩
  show mrows.map (hydrateMessage uid) ≠ []
  simpa using h

/-- A concrete hydration row used in witnesses. -/
def rowA : MessageRow :=
  { id := "m1", text := "hi", timestamp := "t1", user_id := "u1",
    room_id := "roomA" }

/-- Witness for C6: with one concrete message row hydrated and a failing
reactions query, the messages collection is non-empty and the reactions
collection is empty. -/
theorem hydration_partial_failure_tolerant_witness :
    (hydrationEffect true "u1" "roomA" initialState (Except.ok [rowA])
        (Except.error "boom") (Except.ok [])).state.messages ≠ [] ∧
    (hydrationEffect true "u1" "roomA" initialState (Except.ok [rowA])
        (Except.error "boom") (Except.ok [])).state.reactions = [] := by
  have h := hydration_partial_failure_tolerant "u1" "roomA" "boom" [rowA] [] []
  exact ⟨h.1.2.2.1 (by simp), h.1.1⟩

/-- C7: the own-message flag of a hydrated message is true exactly when
the row's `user_id` equals the local handle, and the feed path computes
the very same flag. -/
theorem ownership_tagging (uid : String) (row : MessageRow) :
    ((hydrateMessage uid row).isSender = true ↔ row.user_id = uid) ∧
    ((feedMessage uid row).isSender = true ↔ row.user_id = uid) ∧
    (feedMessage uid row).isSender = (hydrateMessage uid row).isSender := by
  refine ⟨?_, ?_, rfl⟩ <;> simp [hydrateMessage, feedMessage]

/-- A concrete row authored by handle `H`, used in witnesses. -/
def rowOwn : MessageRow :=
  { id := "m9", text := "mine", timestamp := "t9", user_id := "H",
    room_id := "roomA" }

/-- Witness for C7: under local handle `H` the row authored by `H` is
flagged as own on both the hydration path and the feed path. -/
theorem ownership_tagging_witness :
    (hydrateMessage "H" rowOwn).isSender = true ∧
    (feedMessage "H" rowOwn).isSender = true :=
  ⟨(ownership_tagging "H" rowOwn).1.mpr rfl,
    (ownership_tagging "H" rowOwn).2.1.mpr rfl⟩

/-- C8: a `message_reactions` row with no `type` is normalized to `like`
by both the hydration mapping and the feed mapping (which are one and the
same computation), and every normalized entry carries a type from the
closed set like/idea/question/confused. -/
theorem message_reaction_default_type (r : MessageReactionRow) :
    (r.type = none →
      (hydrateMessageReaction r).type = ReactionType.like ∧
      (feedMessageReaction r).type = ReactionType.like) ∧
    feedMessageReaction r = hydrateMessageReaction r ∧
    (hydrateMessageReaction r).type
      ∈ [ReactionType.like, ReactionType.idea, ReactionType.question,
          ReactionType.confused] := by
  refine ⟨fun h => ?_, rfl, ?_⟩
  · constructor <;> simp [hydrateMessageReaction, feedMessageReaction, h]
  · obtain ⟨i, mi, ui, ri, ts, ty⟩ := r
    cases ty with
    | none => simp [hydrateMessageReaction]
    | some t => cases t <;> simp [hydrateMessageReaction]

/-- A concrete `message_reactions` row with the `type` column absent. -/
def mrRowNoType : MessageReactionRow :=
  { id := "q2", message_id := "m1", user_id := "u1", room_id := "roomA",
    timestamp := "t2" }

/-- Witness for C8: the typeless concrete row is normalized to `like` on
both paths. -/
theorem message_reaction_default_type_witness :
    (hydrateMessageReaction mrRowNoType).type = ReactionType.like ∧
    (feedMessageReaction mrRowNoType).type = ReactionType.like :=
  (message_reaction_default_type mrRowNoType).1 rfl

/-- Mention detection of the `MessageItem` component
(`src/unnamed/part_005` lines 11-12 and 40): the `mentions` field defaults
to `[]` on destructuring, and the detection is
`currentUserId ? mentions.includes(currentUserId) : false` — the JS
truthiness test makes a missing or empty handle falsy. -/
def isMentioned (currentUserId : Option String) (m : Message) : Bool :=
  match currentUserId with
  | none => false
  | some uid =>
    if uid == "" then false else (m.mentions.getD []).contains uid

/-- A concrete message whose mentions list contains the empty string. -/
def msgEmptyMention : Message :=
  { id := "m3", text := "hey", timestamp := "t3", user_id := "u9",
    isSender := false, room_id := "roomA", mentions := some [""] }

/-- C9 counterexample: with local handle `""` the handle is an element of
the mentions list `[""]`, yet the detection reports false — the claimed
"if and only if" fails at the empty handle, which JS truthiness treats
like a missing one. -/
theorem mention_detection_empty_handle :
    isMentioned (some "") msgEmptyMention = false ∧
    "" ∈ msgEmptyMention.mentions.getD [] := by
  exact ⟨rfl, by simp [msgEmptyMention]⟩

/-- A concrete message with mentions `["H2"]`. -/
def msgMentionH2 : Message :=
  { id := "m4", text := "ping", timestamp := "t4", user_id := "u9",
    isSender := false, room_id := "roomA", mentions := some ["H2"] }

/-- C9 (amended): the detection reports addressed-to-me exactly when the
local handle is provided, non-empty, and an element of the message's
mentions list (default `[]`); in particular a message mentioning `H2` is
detected under handle `H2` and not under `H3`. -/
theorem mention_detection_truthy (uid : String) (m : Message) :
    (isMentioned (some uid) m = true ↔
      uid ≠ "" ∧ uid ∈ m.mentions.getD []) ∧
    isMentioned none m = false ∧
    isMentioned (some "H2") msgMentionH2 = true ∧
    isMentioned (some "H3") msgMentionH2 = false := by
  refine ⟨?_, rfl, by simp [isMentioned, msgMentionH2], rfl⟩
  by_cases h : uid = ""
  · simp [isMentioned, h]
  · simp [isMentioned, h]

/-- Witness for C9: the amended detection rule evaluated at handle `H2`
and the concrete message mentioning `H2`. -/
theorem mention_detection_truthy_witness :
    isMentioned (some "H2") msgMentionH2 = true :=
  (mention_detection_truthy "H2" msgMentionH2).1.mpr
    ⟨by simp, by simp [msgMentionH2]⟩

/-- A `localStorage`-like key/value store; later `setItem` writes shadow
earlier entries for the same key. -/
structure Storage where
  entries : List (String × String)
  deriving DecidableEq

/-- `storage.getItem(k)`: the value stored under `k`, if any. -/
def Storage.getItem (st : Storage) (k : String) : Option String :=
  (st.entries.find? (fun p => p.1 == k)).map (fun p => p.2)

/-- `storage.setItem(k, v)`: replace any entry under `k` with `v`. -/
def Storage.setItem (st : Storage) (k v : String) : Storage :=
  { entries := (k, v) :: st.entries.filter (fun p => !(p.1 == k)) }

/-- Reading a key right after writing it yields the written value. -/
theorem Storage.getItem_setItem (st : Storage) (k v : String) :
    (st.setItem k v).getItem k = some v := by
  have hk : (((k, v) : String × String).1 == k) = true := by simp
  simp [Storage.getItem, Storage.setItem, List.find?_cons_of_pos _ hk]

/-- The anonymous-handle label `匿名の参加者#` that `getUserId` puts in
front of the random hex suffix. -/
def anonLabel : String := "匿名の参加者#"

/-- A generated handle: the label followed by the random suffix (the
`Math.random().toString(16).substr(2, 4).toUpperCase()` draw is passed in
explicitly). -/
def mkHandle (suffix : String) : String := anonLabel ++ suffix

/-- The fixed localStorage key used by `getUserId`. -/
def userIdKey : String := "chat-user-id"

/-- `getUserId` (`src/hooks/useChatRoom.ts` lines 15-24): with no storage
available, return a freshly generated handle; with storage, return the
stored handle if one is present (and truthy), otherwise generate one,
store it and return it. The function returns the handle together with the
storage as left behind by the call. -/
def getUserId (storage : Option Storage) (suffix : String) :
    String × Option Storage :=
  match storage with
  | none => (mkHandle suffix, none)
  | some st =>
    match st.getItem userIdKey with
    | some v =>
      if v == "" then
        (mkHandle suffix, some (st.setItem userIdKey (mkHandle suffix)))
      else (v, some st)
    | none => (mkHandle suffix, some (st.setItem userIdKey (mkHandle suffix)))

/-- A generated handle is never the empty string. -/
theorem mkHandle_ne_empty (s : String) : mkHandle s ≠ "" := by
  intro h
  have hd := congrArg String.data h
  rw [mkHandle, String.data_append] at hd
  have hlabel : anonLabel.data = [] := (List.append_eq_nil.mp hd).1
  exact absurd hlabel (by decide)

/-- Distinct random draws yield distinct generated handles. -/
theorem mkHandle_inj {s t : String} (h : mkHandle s = mkHandle t) : s = t := by
  have hd := congrArg String.data h
  rw [mkHandle, mkHandle, String.data_append, String.data_append] at hd
  exact String.ext (List.append_cancel_left hd)

/-- C10: with storage available and no handle stored yet, the first
`getUserId` call stores the generated handle under `chat-user-id` and
returns it, and every subsequent call returns that exact stored handle
with the storage unchanged; with storage unavailable, every call returns
the freshly generated handle of its own random draw and stores nothing,
so distinct draws give distinct handles across engine instantiations. -/
theorem getUserId_identity_allocation (st : Storage) (s t : String)
    (h : st.getItem userIdKey = none) :
    (getUserId (some st) s).1 = mkHandle s ∧
    (getUserId (some st) s).2 = some (st.setItem userIdKey (mkHandle s)) ∧
    getUserId (some (st.setItem userIdKey (mkHandle s))) t
      = (mkHandle s, some (st.setItem userIdKey (mkHandle s))) ∧
    getUserId none s = (mkHandle s, none) ∧
    getUserId none t = (mkHandle t, none) ∧
    (s ≠ t → mkHandle s ≠ mkHandle t) := by
  refine ⟨?_, ?_, ?_, rfl, rfl, fun hne hc => hne (mkHandle_inj hc)⟩
  · simp [getUserId, h]
  · simp [getUserId, h]
  · have hg := Storage.getItem_setItem st userIdKey (mkHandle s)
    have hne := mkHandle_ne_empty s
    simp [getUserId, hg, hne]

/-- Witness for C10: concretely, from an empty storage the first call
stores and returns `匿名の参加者#AB12`, the next call returns the same
handle, and without storage the draws `AB12` and `CD34` give different
handles. -/
theorem getUserId_identity_allocation_witness :
    (getUserId (some ⟨[]⟩) "AB12").1 = mkHandle "AB12" ∧
    getUserId (some (Storage.setItem ⟨[]⟩ userIdKey (mkHandle "AB12"))) "CD34"
      = (mkHandle "AB12",
          some (Storage.setItem ⟨[]⟩ userIdKey (mkHandle "AB12"))) ∧
    getUserId none "CD34" = (mkHandle "CD34", none) ∧
    mkHandle "AB12" ≠ mkHandle "CD34" := by
  have h := getUserId_identity_allocation ⟨[]⟩ "AB12" "CD34" rfl
  exact ⟨h.1, h.2.2.1, h.2.2.2.2.1, h.2.2.2.2.2 (by decide)⟩
